import Mathlib

/-!
# Shallow embedding of the rust-openpond-sdk client library

This file embeds the data model and operations of the OpenPond Rust SDK
(`src/lib.rs`, `src/error.rs`, `src/types.rs`) and proves properties of the
message-delivery subsystem: the polling loop, the delivery cursor, callback
registration, and the HTTP request helpers.

Modelling conventions:
* HTTP exchanges with the remote service are inputs: a `FetchOutcome` supplies
  what `reqwest` would return (network failure, or a response with a status, a
  body-text retrieval result, and the `serde_json::from_str` parse result of
  that text).  `serde_json` parsing of raw text is external-library behaviour
  and is therefore supplied as part of the input; structure-directed decoding
  (`from_value::<Vec<Message>>`, `from_value::<Vec<Agent>>`), which is derived
  from the repository's `#[derive(Deserialize)]` struct definitions in
  `types.rs`, is embedded concretely over a `Json` value type.
* Callbacks are opaque functions in the Rust code; the embedding records the
  *presence* of each callback slot and the list of values dispatched to it.
* Machine integers (`i64` timestamps, `u16` statuses) are `Int`/`Nat`; the
  `i64` range check that serde performs when decoding `timestamp` is kept.
* A Rust `panic!`/`unwrap` failure is `Option.none` in the embedding.
-/

namespace OpenPond

/-- `types.rs`: `OpenPondConfig`. -/
structure OpenPondConfig where
  api_url : String
  private_key : Option String
  agent_name : Option String
  api_key : Option String
deriving Repr, DecidableEq

/-- `types.rs`: `Message`.  `timestamp` is an `i64` in the source; it is
modelled as `Int` (serde's range check appears in `decodeI64`). -/
structure Message where
  id : String
  from_agent_id : String
  to_agent_id : String
  content : String
  timestamp : Int
deriving Repr, DecidableEq

/-- `types.rs`: `Agent`. -/
structure Agent where
  id : String
  name : Option String
  last_seen : Option Int
deriving Repr, DecidableEq

/-- `error.rs`: `OpenPondError`.  `SerializationError` wraps a
`serde_json::Error` (modelled by its message string), `HttpError` wraps a
`reqwest::Error` (the transport-level error produced by `?` on a failed
`send()`/`text()`/`json()` call). -/
inductive OpenPondError where
  | ApiError (status : Nat) (message : String)
  | NetworkError (e : String)
  | SerializationError (e : String)
  | HttpError (e : String)
  | SSEError
deriving Repr, DecidableEq

/-- A `serde_json::Value`.  Numbers are modelled as integers (the repository
never decodes floating-point fields). -/
inductive Json where
  | null
  | bool (b : Bool)
  | num (n : Int)
  | str (s : String)
  | arr (xs : List Json)
  | obj (fields : List (String × Json))
deriving Repr

/-- `serde_json`'s `Value::index` (`data["key"]`): field of an object, or
`Null` when the key is missing or the value is not an object. -/
def Json.index : Json → String → Json
  | .obj fields, k =>
    match fields.lookup k with
    | some v => v
    | none => .null
  | _, _ => .null

/-- `serde_json::Value::as_str`. -/
def Json.as_str : Json → Option String
  | .str s => some s
  | _ => none

/-- serde decoding of a required `String` field value. -/
def decodeString : Json → Option String
  | .str s => some s
  | _ => none

/-- serde decoding of a required `i64` field value, with the `i64` range
check serde performs. -/
def decodeI64 : Json → Option Int
  | .num n => if -(2 ^ 63) ≤ n ∧ n < 2 ^ 63 then some n else none
  | _ => none

/-- serde decoding of an `Option<String>` field given the field's lookup
result: a missing field defaults to `None`, an explicit `null` is `None`, a
string is `Some`, anything else is a decode error. -/
def decodeOptString : Option Json → Option (Option String)
  | none => some none
  | some .null => some none
  | some (.str s) => some (some s)
  | some _ => none

/-- serde decoding of an `Option<i64>` field given the field's lookup
result. -/
def decodeOptI64 : Option Json → Option (Option Int)
  | none => some none
  | some .null => some none
  | some (.num n) => if -(2 ^ 63) ≤ n ∧ n < 2 ^ 63 then some (some n) else none
  | some _ => none

/-- serde decoding of one `Message` (derived `Deserialize` in `types.rs`):
an object with required fields `id`, `from_agent_id`, `to_agent_id`,
`content` (strings) and `timestamp` (i64); unknown fields are ignored. -/
def decodeMessage : Json → Option Message
  | .obj fields => do
    let id ← (fields.lookup "id").bind decodeString
    let from_agent_id ← (fields.lookup "from_agent_id").bind decodeString
    let to_agent_id ← (fields.lookup "to_agent_id").bind decodeString
    let content ← (fields.lookup "content").bind decodeString
    let timestamp ← (fields.lookup "timestamp").bind decodeI64
    pure ⟨id, from_agent_id, to_agent_id, content, timestamp⟩
  | _ => none

/-- `serde_json::from_value::<Vec<Message>>`. -/
def decodeMessages : Json → Option (List Message)
  | .arr xs => xs.mapM decodeMessage
  | _ => none

/-- serde decoding of one `Agent` (derived `Deserialize` in `types.rs`):
required `id`, optional `name` and `last_seen`. -/
def decodeAgent : Json → Option Agent
  | .obj fields => do
    let id ← (fields.lookup "id").bind decodeString
    let name ← decodeOptString (fields.lookup "name")
    let last_seen ← decodeOptI64 (fields.lookup "last_seen")
    pure ⟨id, name, last_seen⟩
  | _ => none

/-- `serde_json::from_value::<Vec<Agent>>`. -/
def decodeAgents : Json → Option (List Agent)
  | .arr xs => xs.mapM decodeAgent
  | _ => none

/-- What one `reqwest` HTTP exchange yields back to the SDK, supplied as an
input to the embedded operations.  `text` is the result of
`response.text().await` (`Except.error` = transport failure while reading the
body, carrying the `reqwest::Error` message); `parse` is the result
`serde_json::from_str::<Value>` would give on that text (`Except.error`
carrying the `serde_json::Error` message). -/
structure HttpResponse where
  status : Nat
  text : Except String String
  parse : Except String Json

/-- Result of `client....send().await`: transport failure (connection
refused, timeout, DNS, ...) carrying the `reqwest::Error` message, or a
response. -/
inductive FetchOutcome where
  | fail (e : String)
  | resp (r : HttpResponse)

/-- `reqwest::StatusCode::is_success`: 2xx. -/
def statusIsSuccess (s : Nat) : Bool := 200 ≤ s && s < 300

/-- `response.json::<T>().await` as the code uses it: read the body text and
parse it; either failure is a `reqwest::Error` (surfaced through `?` as
`OpenPondError::HttpError`). -/
def responseJson (r : HttpResponse) : Except OpenPondError Json :=
  match r.text with
  | .error e => .error (.HttpError e)
  | .ok _ =>
    match r.parse with
    | .error e => .error (.HttpError e)
    | .ok j => .ok j

/-- The mutable state of an `OpenPondSDK` value: the delivery cursor
`last_message_timestamp` and whether each callback slot
(`message_callback`, `error_callback`) currently holds a callback. -/
structure SDKState where
  last_message_timestamp : Int
  msgCb : Bool
  errCb : Bool
deriving Repr, DecidableEq

/-- `http::HeaderValue` byte validity (the check behind
`HeaderValue::from_str`, reached by `api_key.parse()` in
`OpenPondSDK::new`): a byte is legal iff it is `≥ 32` and `≠ 127`, or is the
horizontal tab `9`. -/
def isValidHeaderByte (b : Nat) : Bool := (32 ≤ b && b ≠ 127) || b == 9

/-- `HeaderValue::from_str` validity of a string, stated per character: a
character with codepoint `≥ 128` encodes to UTF-8 bytes that are all `≥ 128`
(hence legal), and a character `< 128` encodes to its own codepoint, so
byte-level validity coincides with this character-level check. -/
def isValidHeaderValue (s : String) : Bool :=
  s.data.all fun c => 128 ≤ c.toNat || isValidHeaderByte c.toNat

/-- `OpenPondSDK::new` (`lib.rs` 29–55): builds default headers
(`Content-Type: application/json`, always parseable; `X-API-Key` from
`config.api_key` via `.parse().unwrap()`, which panics on an illegal header
value) and initialises `last_message_timestamp` to 0 with both callback
slots empty.  `none` models the `unwrap` panic. -/
def new (config : OpenPondConfig) : Option SDKState :=
  match config.api_key with
  | some k => if isValidHeaderValue k then some ⟨0, false, false⟩ else none
  | none => some ⟨0, false, false⟩

/-- `on_message` (`lib.rs` 58–64): store the callback in the slot.  No
dispatch happens here; the returned lists of dispatched messages/errors are
empty. -/
def on_message (s : SDKState) : SDKState × List Message × List OpenPondError :=
  ({ s with msgCb := true }, [], [])

/-- `on_error` (`lib.rs` 67–73). -/
def on_error (s : SDKState) : SDKState × List Message × List OpenPondError :=
  ({ s with errCb := true }, [], [])

/-- `register_agent` (`lib.rs` 149–168): POST `/agents/register`; a
non-success status other than 409 Conflict is an `ApiError` carrying the
status and body text (a failed body read becomes `HttpError` through `?`);
everything else, 409 included, is `Ok(())`. -/
def register_agent (r : FetchOutcome) : Except OpenPondError Unit :=
  match r with
  | .fail e => .error (.HttpError e)
  | .resp resp =>
    if ¬ statusIsSuccess resp.status ∧ resp.status ≠ 409 then
      match resp.text with
      | .ok t => .error (.ApiError resp.status t)
      | .error e => .error (.HttpError e)
    else
      .ok ()

/-- `start` (`lib.rs` 76–83): `register_agent` with `?`, then
`start_polling()`.  The returned `Bool` records whether `start_polling` was
reached (it is never reached on the error path, and always reached on the
success path). -/
def start (r : FetchOutcome) : Except OpenPondError Bool :=
  match register_agent r with
  | .error e => .error e
  | .ok () => .ok true

/-- `send_message` (`lib.rs` 86–112): POST `/messages`; non-success status
is an `ApiError` with status and body text; on success the body is parsed
via `response.json()` and the result is
`data["messageId"].as_str().unwrap_or_default()`. -/
def send_message (r : FetchOutcome) : Except OpenPondError String :=
  match r with
  | .fail e => .error (.HttpError e)
  | .resp resp =>
    if ¬ statusIsSuccess resp.status then
      match resp.text with
      | .ok t => .error (.ApiError resp.status t)
      | .error e => .error (.HttpError e)
    else
      match responseJson resp with
      | .error e => .error e
      | .ok data => .ok (((data.index "messageId").as_str).getD "")

/-- `get_agent` (`lib.rs` 115–129): GET `/agents/{id}`; non-success status
is an `ApiError`; on success the body is decoded as an `Agent` (a serde
decode failure inside `response.json()` is a `reqwest::Error`, hence
`HttpError`). -/
def get_agent (r : FetchOutcome) : Except OpenPondError Agent :=
  match r with
  | .fail e => .error (.HttpError e)
  | .resp resp =>
    if ¬ statusIsSuccess resp.status then
      match resp.text with
      | .ok t => .error (.ApiError resp.status t)
      | .error e => .error (.HttpError e)
    else
      match responseJson resp with
      | .error e => .error e
      | .ok data =>
        match decodeAgent data with
        | some a => .ok a
        | none => .error (.HttpError "error decoding response body")

/-- `list_agents` (`lib.rs` 132–147): GET `/agents`; non-success status is
an `ApiError`; on success the body is parsed to a `Value` and
`from_value::<Vec<Agent>>(data["agents"])` is decoded, whose failure is a
`serde_json::Error` converted by `?` into `SerializationError`. -/
def list_agents (r : FetchOutcome) : Except OpenPondError (List Agent) :=
  match r with
  | .fail e => .error (.HttpError e)
  | .resp resp =>
    if ¬ statusIsSuccess resp.status then
      match resp.text with
      | .ok t => .error (.ApiError resp.status t)
      | .error e => .error (.HttpError e)
    else
      match responseJson resp with
      | .error e => .error e
      | .ok data =>
        match decodeAgents (data.index "agents") with
        | some agents => .ok agents
        | none => .error (.SerializationError "invalid agents array")

/-- The fold the polling loop performs over a fetched batch:
`max_timestamp` starts at `since` and takes
`std::cmp::max(max_timestamp, message.timestamp)` for each message. -/
def batchMax (since : Int) (msgs : List Message) : Int :=
  msgs.foldl (fun acc m => max acc m.timestamp) since

/-- One iteration of the polling loop body (`lib.rs` 181–244), given the
cursor value `since` read at the top of the tick, the callback-slot
occupancy, and the fetch outcome.  Returns the value written back to
`last_message_timestamp`, the messages dispatched to the message callback,
and the errors dispatched to the error callback, in order.  Every path of
the loop body ends in `continue` or falls through to the next iteration;
the function is total and no path signals termination. -/
def pollTick (since : Int) (msgCb errCb : Bool) (r : FetchOutcome) :
    Int × List Message × List OpenPondError :=
  match r with
  | .fail e => (since, [], if errCb then [.NetworkError e] else [])
  | .resp resp =>
    if ¬ statusIsSuccess resp.status then
      (since, [],
        if errCb then
          [.ApiError resp.status ((resp.text).toOption.getD "")]
        else [])
    else
      match resp.text with
      | .error e => (since, [], if errCb then [.NetworkError e] else [])
      | .ok _ =>
        match resp.parse with
        | .error e =>
          (since, [], if errCb then [.SerializationError e] else [])
        | .ok data =>
          match decodeMessages (data.index "messages") with
          | none => (since, [], [])
          | some messages =>
            if msgCb then
              (batchMax since messages, messages, [])
            else
              (since, [], [])

/-- An operation applied to a live SDK value: a callback registration, one
polling-loop tick (with the HTTP outcome the environment supplies for it),
or one of the request helpers (which never touch the cursor or the callback
slots). -/
inductive SDKOp where
  | onMessage
  | onError
  | tick (r : FetchOutcome)
  | sendMessage (r : FetchOutcome)
  | getAgent (r : FetchOutcome)
  | listAgents (r : FetchOutcome)
  | startOp (r : FetchOutcome)

/-- Sequential small-step semantics of the SDK: apply one operation to the
shared state, yielding the new state, the messages dispatched, and the
errors dispatched during that operation. -/
def step (s : SDKState) : SDKOp → SDKState × List Message × List OpenPondError
  | .onMessage => on_message s
  | .onError => on_error s
  | .tick r =>
    let (c, ms, es) := pollTick s.last_message_timestamp s.msgCb s.errCb r
    ({ s with last_message_timestamp := c }, ms, es)
  | .sendMessage _ => (s, [], [])
  | .getAgent _ => (s, [], [])
  | .listAgents _ => (s, [], [])
  | .startOp _ => (s, [], [])

/-- Run a sequence of operations from a state. -/
def run (s : SDKState) : List SDKOp → SDKState
  | [] => s
  | op :: ops => run (step s op).1 ops

/-- All messages dispatched to the message callback over a run, in dispatch
order. -/
def runMsgs (s : SDKState) : List SDKOp → List Message
  | [] => []
  | op :: ops => (step s op).2.1 ++ runMsgs (step s op).1 ops

/-- The public surface of the SDK: the `pub` functions of `impl OpenPondSDK`
in `lib.rs` (`register_agent` and `start_polling` are private). -/
def publicSurface : List String :=
  ["new", "on_message", "on_error", "start", "send_message", "get_agent",
   "list_agents"]

/-! ## Concrete sample data (used by witnesses) -/

/-- A sample message with a given id and timestamp. -/
def sampleMsg (i : String) (ts : Int) : Message := ⟨i, "a", "b", "hi", ts⟩

/-- The JSON encoding of `sampleMsg`. -/
def sampleMsgJson (i : String) (ts : Int) : Json :=
  .obj [("id", .str i), ("from_agent_id", .str "a"),
        ("to_agent_id", .str "b"), ("content", .str "hi"),
        ("timestamp", .num ts)]

/-- The spec's reference batch: timestamps `[100, 250, 180]`. -/
def specBatch : List Message :=
  [sampleMsg "m1" 100, sampleMsg "m2" 250, sampleMsg "m3" 180]

/-- A fetch-since response body containing `specBatch`. -/
def specBatchJson : Json :=
  .obj [("messages",
         .arr [sampleMsgJson "m1" 100, sampleMsgJson "m2" 250,
               sampleMsgJson "m3" 180])]

/-- A 200 response carrying `specBatchJson`. -/
def specBatchResp : HttpResponse := ⟨200, .ok "batch-body", .ok specBatchJson⟩

/-! ## Helper lemmas about the batch fold -/

theorem batchMax_cons (since : Int) (m : Message) (ms : List Message) :
    batchMax since (m :: ms) = batchMax (max since m.timestamp) ms := rfl

theorem le_batchMax (since : Int) (msgs : List Message) :
    since ≤ batchMax since msgs := by
  induction msgs generalizing since with
  | nil => exact le_refl _
  | cons m ms ih =>
    calc since ≤ max since m.timestamp := le_max_left _ _
    _ ≤ batchMax (max since m.timestamp) ms := ih _

theorem timestamp_le_batchMax (since : Int) (msgs : List Message)
    (m : Message) (hm : m ∈ msgs) : m.timestamp ≤ batchMax since msgs := by
  induction msgs generalizing since with
  | nil => cases hm
  | cons m' ms ih =>
    rcases List.mem_cons.mp hm with h | h
    · subst h
      calc m.timestamp ≤ max since m.timestamp := le_max_right _ _
      _ ≤ batchMax (max since m.timestamp) ms := le_batchMax _ _
    · exact ih _ h

theorem batchMax_eq_since_or_mem (since : Int) (msgs : List Message) :
    batchMax since msgs = since ∨
      ∃ m ∈ msgs, batchMax since msgs = m.timestamp := by
  induction msgs generalizing since with
  | nil => exact Or.inl rfl
  | cons m ms ih =>
    rw [batchMax_cons]
    rcases ih (max since m.timestamp) with h | ⟨m', hm', h⟩
    · rcases max_choice since m.timestamp with hc | hc
      · exact Or.inl (h.trans hc)
      · exact Or.inr ⟨m, List.mem_cons_self _ _, h.trans hc⟩
    · exact Or.inr ⟨m', List.mem_cons_of_mem _ hm', h⟩

theorem batchMax_nil (since : Int) : batchMax since [] = since := rfl

/-! ## Equation lemmas for each branch of the poll tick -/

theorem pollTick_fail (since : Int) (mc ec : Bool) (e : String) :
    pollTick since mc ec (.fail e) =
      (since, [], if ec then [.NetworkError e] else []) := rfl

theorem pollTick_badStatus (since : Int) (mc ec : Bool)
    (resp : HttpResponse) (h : statusIsSuccess resp.status = false) :
    pollTick since mc ec (.resp resp) =
      (since, [],
        if ec then [.ApiError resp.status ((resp.text).toOption.getD "")]
        else []) := by
  simp [pollTick, h]

theorem pollTick_textErr (since : Int) (mc ec : Bool)
    (resp : HttpResponse) (e : String)
    (hst : statusIsSuccess resp.status = true)
    (ht : resp.text = .error e) :
    pollTick since mc ec (.resp resp) =
      (since, [], if ec then [.NetworkError e] else []) := by
  simp [pollTick, hst, ht]

theorem pollTick_parseErr (since : Int) (mc ec : Bool)
    (resp : HttpResponse) (t e : String)
    (hst : statusIsSuccess resp.status = true)
    (ht : resp.text = .ok t) (hp : resp.parse = .error e) :
    pollTick since mc ec (.resp resp) =
      (since, [], if ec then [.SerializationError e] else []) := by
  simp [pollTick, hst, ht, hp]

theorem pollTick_decodeErr (since : Int) (mc ec : Bool)
    (resp : HttpResponse) (t : String) (data : Json)
    (hst : statusIsSuccess resp.status = true)
    (ht : resp.text = .ok t) (hp : resp.parse = .ok data)
    (hd : decodeMessages (data.index "messages") = none) :
    pollTick since mc ec (.resp resp) = (since, [], []) := by
  simp [pollTick, hst, ht, hp, hd]

/-- On a success response whose body text reads, parses, and decodes to a
batch, the tick dispatches the batch (when a message callback is present)
and writes back the batch fold. -/
theorem pollTick_decoded (since : Int) (mc ec : Bool) (resp : HttpResponse)
    (t : String) (data : Json) (msgs : List Message)
    (hst : statusIsSuccess resp.status = true)
    (ht : resp.text = .ok t) (hp : resp.parse = .ok data)
    (hd : decodeMessages (data.index "messages") = some msgs) :
    pollTick since mc ec (.resp resp) =
      if mc then (batchMax since msgs, msgs, []) else (since, [], []) := by
  simp [pollTick, hst, ht, hp, hd]

/-! ## Aggregate lemmas about the poll tick -/

/-- The cursor value written by a tick is never below the value read. -/
theorem since_le_pollTick_fst (since : Int) (mc ec : Bool)
    (r : FetchOutcome) : since ≤ (pollTick since mc ec r).1 := by
  rcases r with e | resp
  · exact le_refl _
  · cases hst : statusIsSuccess resp.status with
    | false => rw [pollTick_badStatus _ _ _ _ hst]
    | true =>
      cases ht : resp.text with
      | error e => rw [pollTick_textErr _ _ _ _ _ hst ht]
      | ok t =>
        cases hp : resp.parse with
        | error e => rw [pollTick_parseErr _ _ _ _ _ _ hst ht hp]
        | ok data =>
          cases hd : decodeMessages (data.index "messages") with
          | none => rw [pollTick_decodeErr _ _ _ _ _ _ hst ht hp hd]
          | some msgs =>
            rw [pollTick_decoded _ _ _ _ _ _ _ hst ht hp hd]
            cases mc
            · simp
            · simpa using le_batchMax since msgs

/-- If a tick changes the cursor, it dispatched a non-empty batch. -/
theorem pollTick_changed (since : Int) (mc ec : Bool) (r : FetchOutcome)
    (h : (pollTick since mc ec r).1 ≠ since) :
    (pollTick since mc ec r).2.1 ≠ [] := by
  rcases r with e | resp
  · exact absurd rfl h
  · cases hst : statusIsSuccess resp.status with
    | false => rw [pollTick_badStatus _ _ _ _ hst] at h; exact absurd rfl h
    | true =>
      cases ht : resp.text with
      | error e =>
        rw [pollTick_textErr _ _ _ _ _ hst ht] at h; exact absurd rfl h
      | ok t =>
        cases hp : resp.parse with
        | error e =>
          rw [pollTick_parseErr _ _ _ _ _ _ hst ht hp] at h
          exact absurd rfl h
        | ok data =>
          cases hd : decodeMessages (data.index "messages") with
          | none =>
            rw [pollTick_decodeErr _ _ _ _ _ _ hst ht hp hd] at h
            exact absurd rfl h
          | some msgs =>
            rw [pollTick_decoded _ _ _ _ _ _ _ hst ht hp hd] at h ⊢
            cases mc
            · simp at h
            · simp only [if_true] at h ⊢
              rcases msgs with _ | ⟨m, ms⟩
              · exact absurd (batchMax_nil since) h
              · simp

/-- A tick run with no message callback dispatches no messages and writes
the cursor back unchanged. -/
theorem pollTick_noMsgCb (since : Int) (ec : Bool) (r : FetchOutcome) :
    (pollTick since false ec r).1 = since ∧
      (pollTick since false ec r).2.1 = [] := by
  rcases r with e | resp
  · exact ⟨rfl, rfl⟩
  · cases hst : statusIsSuccess resp.status with
    | false => rw [pollTick_badStatus _ _ _ _ hst]; exact ⟨rfl, rfl⟩
    | true =>
      cases ht : resp.text with
      | error e => rw [pollTick_textErr _ _ _ _ _ hst ht]; exact ⟨rfl, rfl⟩
      | ok t =>
        cases hp : resp.parse with
        | error e =>
          rw [pollTick_parseErr _ _ _ _ _ _ hst ht hp]; exact ⟨rfl, rfl⟩
        | ok data =>
          cases hd : decodeMessages (data.index "messages") with
          | none =>
            rw [pollTick_decodeErr _ _ _ _ _ _ hst ht hp hd]
            exact ⟨rfl, rfl⟩
          | some msgs =>
            rw [pollTick_decoded _ _ _ _ _ _ _ hst ht hp hd]
            exact ⟨rfl, rfl⟩

/-- A tick run with no error callback dispatches no errors. -/
theorem pollTick_noErrCb (since : Int) (mc : Bool) (r : FetchOutcome) :
    (pollTick since mc false r).2.2 = [] := by
  rcases r with e | resp
  · rfl
  · cases hst : statusIsSuccess resp.status with
    | false => rw [pollTick_badStatus _ _ _ _ hst]; simp
    | true =>
      cases ht : resp.text with
      | error e => rw [pollTick_textErr _ _ _ _ _ hst ht]; simp
      | ok t =>
        cases hp : resp.parse with
        | error e => rw [pollTick_parseErr _ _ _ _ _ _ hst ht hp]; simp
        | ok data =>
          cases hd : decodeMessages (data.index "messages") with
          | none => rw [pollTick_decodeErr _ _ _ _ _ _ hst ht hp hd]
          | some msgs =>
            rw [pollTick_decoded _ _ _ _ _ _ _ hst ht hp hd]
            cases mc <;> simp

/-! ## Lemmas about the step semantics -/

theorem SDKState.eta_last (s : SDKState) :
    ({ s with last_message_timestamp := s.last_message_timestamp } :
      SDKState) = s := rfl

theorem step_tick (s : SDKState) (r : FetchOutcome) :
    step s (.tick r) =
      ({ s with last_message_timestamp :=
          (pollTick s.last_message_timestamp s.msgCb s.errCb r).1 },
       (pollTick s.last_message_timestamp s.msgCb s.errCb r).2.1,
       (pollTick s.last_message_timestamp s.msgCb s.errCb r).2.2) := by
  rcases hp : pollTick s.last_message_timestamp s.msgCb s.errCb r
    with ⟨c, ms, es⟩
  simp [step, hp]

/-- Initial state produced by a successful construction. -/
theorem new_initial_state (cfg : OpenPondConfig) (st : SDKState)
    (h : new cfg = some st) : st = ⟨0, false, false⟩ := by
  rcases cfg with ⟨url, pk, an, ak⟩
  cases ak with
  | none =>
    simp only [new] at h
    exact (Option.some.inj h).symm
  | some k =>
    by_cases hv : isValidHeaderValue k
    · simp only [new, if_pos hv] at h
      exact (Option.some.inj h).symm
    · simp only [new, if_neg hv] at h
      cases h

/-- No operation decreases the cursor. -/
theorem step_cursor_mono (s : SDKState) (op : SDKOp) :
    s.last_message_timestamp ≤
      ((step s op).1).last_message_timestamp := by
  cases op with
  | tick r =>
    rw [step_tick]
    exact since_le_pollTick_fst _ _ _ _
  | onMessage => exact le_refl _
  | onError => exact le_refl _
  | sendMessage r => exact le_refl _
  | getAgent r => exact le_refl _
  | listAgents r => exact le_refl _
  | startOp r => exact le_refl _

/-- The cursor is non-decreasing along any run. -/
theorem run_cursor_mono (s : SDKState) (ops : List SDKOp) :
    s.last_message_timestamp ≤
      (run s ops).last_message_timestamp := by
  induction ops generalizing s with
  | nil => exact le_refl _
  | cons op ops ih =>
    exact le_trans (step_cursor_mono s op) (ih _)

/-- The cursor changes only when a tick dispatched a non-empty batch. -/
theorem step_cursor_changed (s : SDKState) (op : SDKOp)
    (h : ((step s op).1).last_message_timestamp ≠
      s.last_message_timestamp) :
    ∃ r, op = SDKOp.tick r ∧ (step s op).2.1 ≠ [] := by
  cases op with
  | tick r =>
    rw [step_tick] at h ⊢
    exact ⟨r, rfl, pollTick_changed _ _ _ _ h⟩
  | onMessage => exact absurd rfl h
  | onError => exact absurd rfl h
  | sendMessage r => exact absurd rfl h
  | getAgent r => exact absurd rfl h
  | listAgents r => exact absurd rfl h
  | startOp r => exact absurd rfl h

/-- A tick taken while no message callback is registered leaves the state
exactly as it was and dispatches no messages. -/
theorem step_tick_noMsgCb (s : SDKState) (r : FetchOutcome)
    (h : s.msgCb = false) :
    (step s (.tick r)).1 = s ∧ (step s (.tick r)).2.1 = [] := by
  rcases s with ⟨c, mc, ec⟩
  simp only at h
  subst h
  rw [step_tick]
  have hn := pollTick_noMsgCb c ec r
  simp only at hn ⊢
  exact ⟨by rw [hn.1], hn.2⟩

/-! ## Claim C1 -/

/-- C1: on a successful poll tick (2xx status, body text read, body parsed,
`messages` field decoded to a batch `msgs`) with a message callback
registered, the dispatched-message list is exactly `msgs` — each fetched
message dispatched exactly once, in the order received — no error is
dispatched, and the cursor written back is the maximum of its prior value
`since` and the timestamps of the batch (it is an upper bound of all of
them and is attained by one of them); an empty batch leaves the cursor
unchanged. -/
theorem C1_poll_dispatch_and_cursor_advance
    (since : Int) (ec : Bool) (resp : HttpResponse) (t : String)
    (data : Json) (msgs : List Message)
    (hst : statusIsSuccess resp.status = true)
    (ht : resp.text = .ok t) (hp : resp.parse = .ok data)
    (hd : decodeMessages (data.index "messages") = some msgs) :
    pollTick since true ec (.resp resp) = (batchMax since msgs, msgs, []) ∧
    since ≤ batchMax since msgs ∧
    (∀ m ∈ msgs, m.timestamp ≤ batchMax since msgs) ∧
    (batchMax since msgs = since ∨
      ∃ m ∈ msgs, batchMax since msgs = m.timestamp) ∧
    (msgs = [] → batchMax since msgs = since) := by
  refine ⟨?_, le_batchMax _ _, fun m hm => timestamp_le_batchMax _ _ m hm,
    batchMax_eq_since_or_mem _ _, ?_⟩
  · rw [pollTick_decoded _ _ _ _ _ _ _ hst ht hp hd]
    simp
  · rintro rfl
    rfl

/-- Witness for C1 at the spec's reference batch `[100, 250, 180]` with
prior cursor `0`: all three messages dispatched in order, cursor becomes
`250`. -/
theorem C1_witness :
    decodeMessages (specBatchJson.index "messages") = some specBatch ∧
    (pollTick 0 true false (.resp specBatchResp) = (250, specBatch, []) ∧
      (0 : Int) ≤ 250 ∧
      (∀ m ∈ specBatch, m.timestamp ≤ (250 : Int)) ∧
      ((250 : Int) = 0 ∨ ∃ m ∈ specBatch, (250 : Int) = m.timestamp) ∧
      (specBatch = [] → (250 : Int) = 0)) :=
  ⟨by decide,
   C1_poll_dispatch_and_cursor_advance 0 false specBatchResp "batch-body"
     specBatchJson specBatch rfl rfl rfl (by decide)⟩

/-! ## Claim C2 -/

/-- C2: the delivery cursor `last_message_timestamp` is initialised to 0 by
`new`, no SDK operation or poll-loop step ever decreases it (it is
monotonically non-decreasing along every run), and any step that changes it
is a poll tick that dispatched a non-empty batch of messages. -/
theorem C2_cursor_init_monotone_change_only_on_delivery :
    (∀ cfg st, new cfg = some st → st.last_message_timestamp = 0) ∧
    (∀ s op, s.last_message_timestamp ≤
       ((step s op).1).last_message_timestamp) ∧
    (∀ s ops, s.last_message_timestamp ≤
       (run s ops).last_message_timestamp) ∧
    (∀ s op, ((step s op).1).last_message_timestamp ≠
         s.last_message_timestamp →
       ∃ r, op = SDKOp.tick r ∧ (step s op).2.1 ≠ []) :=
  ⟨fun cfg st h => by rw [new_initial_state cfg st h],
   step_cursor_mono, run_cursor_mono, step_cursor_changed⟩

/-- Witness for C2: a freshly constructed SDK has cursor 0, and the
concrete tick that delivers the reference batch from cursor 0 changes the
cursor and dispatched a non-empty batch. -/
theorem C2_witness :
    new ⟨"https://api.openpond.com", none, some "example-agent", none⟩
        = some ⟨0, false, false⟩ ∧
    (⟨0, false, false⟩ : SDKState).last_message_timestamp = 0 ∧
    ∃ r, SDKOp.tick (.resp specBatchResp) = SDKOp.tick r ∧
      (step ⟨0, true, false⟩ (SDKOp.tick (.resp specBatchResp))).2.1 ≠ [] :=
  ⟨by decide,
   C2_cursor_init_monotone_change_only_on_delivery.1
     ⟨"https://api.openpond.com", none, some "example-agent", none⟩
     ⟨0, false, false⟩ (by decide),
   C2_cursor_init_monotone_change_only_on_delivery.2.2.2
     ⟨0, true, false⟩ (SDKOp.tick (.resp specBatchResp)) (by decide)⟩

/-! ## Claim C3 -/

/-- C3: the SDK keeps no queue of missed messages.  Poll ticks taken while
no message callback is registered dispatch nothing and leave the SDK state
untouched, so prepending any number of them changes nothing about which
messages the rest of the run dispatches — and registering a callback
(`on_message`) itself dispatches nothing, taking effect on the next
dispatch only. -/
theorem C3_no_queued_replay_for_late_registration
    (s : SDKState) (pre ops : List SDKOp)
    (hcb : s.msgCb = false)
    (hpre : ∀ op ∈ pre, ∃ r, op = SDKOp.tick r) :
    runMsgs s (pre ++ ops) = runMsgs s ops ∧
    (step s SDKOp.onMessage).2.1 = [] := by
  refine ⟨?_, rfl⟩
  revert hpre
  induction pre with
  | nil => intro _; rfl
  | cons op pre ih =>
    intro hpre
    obtain ⟨r, rfl⟩ := hpre op (List.mem_cons_self _ _)
    have h1 := step_tick_noMsgCb s r hcb
    show (step s (.tick r)).2.1 ++
      runMsgs (step s (.tick r)).1 (pre ++ ops) = runMsgs s ops
    rw [h1.2, h1.1, List.nil_append]
    exact ih fun op hop => hpre op (List.mem_cons_of_mem _ hop)

/-- Witness for C3: a batch fetched before registration is not dispatched
and does not alter what a later registration sees. -/
theorem C3_witness :
    (⟨0, false, false⟩ : SDKState).msgCb = false ∧
    (runMsgs ⟨0, false, false⟩
        ([SDKOp.tick (.resp specBatchResp)] ++
          [SDKOp.onMessage, SDKOp.tick (.fail "down")]) =
      runMsgs ⟨0, false, false⟩
        [SDKOp.onMessage, SDKOp.tick (.fail "down")] ∧
      (step ⟨0, false, false⟩ SDKOp.onMessage).2.1 = []) :=
  ⟨rfl,
   C3_no_queued_replay_for_late_registration ⟨0, false, false⟩
     [SDKOp.tick (.resp specBatchResp)]
     [SDKOp.onMessage, SDKOp.tick (.fail "down")] rfl
     (by intro op hop
         simp only [List.mem_singleton] at hop
         exact ⟨_, hop⟩)⟩

/-! ## Claim C4 -/

/-- A failed poll-tick fetch: the request itself failed at transport level,
the response carried a non-success status, or the body text could not be
read (a network-level failure mid-response). -/
def fetchFailed : FetchOutcome → Prop
  | .fail _ => True
  | .resp resp =>
    statusIsSuccess resp.status = false ∨ ∃ e, resp.text = Except.error e

/-- C4: a failed poll tick, with an error callback registered, dispatches
exactly one error event, dispatches no messages, leaves the SDK state (in
particular the cursor) unchanged, and does not terminate the loop: the run
continues with the remaining operations exactly as if the failed tick were
absent. -/
theorem C4_failed_tick_error_isolation
    (s : SDKState) (r : FetchOutcome) (ops : List SDKOp)
    (hec : s.errCb = true) (hr : fetchFailed r) :
    (∃ e, (step s (.tick r)).2.2 = [e]) ∧
    (step s (.tick r)).2.1 = [] ∧
    (step s (.tick r)).1 = s ∧
    run s (SDKOp.tick r :: ops) = run s ops := by
  rcases s with ⟨c, mc, ec⟩
  simp only at hec
  subst hec
  have key : ∃ e, pollTick c mc true r = (c, [], [e]) := by
    rcases r with e | resp
    · exact ⟨_, pollTick_fail c mc true e⟩
    · rcases hr with hst | ⟨e, ht⟩
      · exact ⟨.ApiError resp.status ((resp.text).toOption.getD ""),
          by rw [pollTick_badStatus c mc true resp hst]; simp⟩
      · cases hst : statusIsSuccess resp.status with
        | false =>
          exact ⟨.ApiError resp.status ((resp.text).toOption.getD ""),
            by rw [pollTick_badStatus c mc true resp hst]; simp⟩
        | true =>
          exact ⟨.NetworkError e,
            by rw [pollTick_textErr c mc true resp e hst ht]; simp⟩
  obtain ⟨e, he⟩ := key
  have hs : step ⟨c, mc, true⟩ (.tick r) = (⟨c, mc, true⟩, [], [e]) := by
    rw [step_tick]
    simp only [he]
  refine ⟨⟨e, by rw [hs]⟩, by rw [hs], by rw [hs], ?_⟩
  show run (step ⟨c, mc, true⟩ (.tick r)).1 ops = run ⟨c, mc, true⟩ ops
  rw [hs]

/-- Witness for C4: a simulated HTTP 500 tick dispatches exactly one error,
no messages, leaves the state unchanged and the next operations still
run. -/
theorem C4_witness :
    (⟨0, true, true⟩ : SDKState).errCb = true ∧
    fetchFailed (.resp ⟨500, .ok "internal error", .error "x"⟩) ∧
    ((∃ e, (step ⟨0, true, true⟩
        (.tick (.resp ⟨500, .ok "internal error", .error "x"⟩))).2.2 = [e]) ∧
      (step ⟨0, true, true⟩
        (.tick (.resp ⟨500, .ok "internal error", .error "x"⟩))).2.1 = [] ∧
      (step ⟨0, true, true⟩
        (.tick (.resp ⟨500, .ok "internal error", .error "x"⟩))).1 =
        ⟨0, true, true⟩ ∧
      run ⟨0, true, true⟩
        (SDKOp.tick (.resp ⟨500, .ok "internal error", .error "x"⟩) ::
          [SDKOp.tick (.resp specBatchResp)]) =
        run ⟨0, true, true⟩ [SDKOp.tick (.resp specBatchResp)]) :=
  ⟨rfl, Or.inl (by decide),
   C4_failed_tick_error_isolation ⟨0, true, true⟩
     (.resp ⟨500, .ok "internal error", .error "x"⟩)
     [SDKOp.tick (.resp specBatchResp)] rfl (Or.inl (by decide))⟩

/-! ## Claim C5 -/

/-- C5: `start` treats a 409 Conflict registration response as success and
reaches `start_polling` (the `Bool` in the result records that the polling
loop was launched); for a registration response with any other non-success
status whose body text is readable, `start` returns `ApiError` with that
status and body text synchronously — the error result means `start_polling`
is never reached, and the embedding consumes exactly one registration
exchange, so no retry happens. -/
theorem C5_registration_conflict_ok_other_failures_fatal
    (resp : HttpResponse) (t : String) :
    (resp.status = 409 → start (.resp resp) = .ok true) ∧
    (statusIsSuccess resp.status = false → resp.status ≠ 409 →
      resp.text = .ok t →
      start (.resp resp) = .error (.ApiError resp.status t)) := by
  constructor
  · intro h409
    simp [start, register_agent, h409]
  · intro hst hne ht
    simp [start, register_agent, hst, hne, ht]

/-- Witness for C5: a 409 registration response starts polling; a 500
registration response returns the ApiError with status and body. -/
theorem C5_witness :
    start (.resp ⟨409, .ok "conflict", .error "x"⟩) = .ok true ∧
    start (.resp ⟨500, .ok "boom", .error "x"⟩) =
      .error (.ApiError 500 "boom") :=
  ⟨(C5_registration_conflict_ok_other_failures_fatal
      ⟨409, .ok "conflict", .error "x"⟩ "conflict").1 rfl,
   (C5_registration_conflict_ok_other_failures_fatal
      ⟨500, .ok "boom", .error "x"⟩ "boom").2 (by decide) (by decide) rfl⟩

/-! ## Claim C6 -/

/-- C6 (counterexample): the public surface of `impl OpenPondSDK` contains
no `stop` operation at all — the claim that `stop()` exists, transitions to
Idle and halts dispatch is false of this code. -/
theorem C6_counterexample : "stop" ∉ publicSurface := by decide

/-- C6 (amended): the SDK provides no `stop` operation, and no operation of
the SDK ever disables future callback dispatch: once a message callback is
registered, every reachable state still has it registered (the polling
loop, once launched, can never be silenced through the SDK). -/
theorem C6_no_stop_operation :
    "stop" ∉ publicSurface ∧
    (∀ s : SDKState, ∀ op : SDKOp,
      s.msgCb = true → ((step s op).1).msgCb = true) ∧
    (∀ s : SDKState, ∀ op : SDKOp,
      s.errCb = true → ((step s op).1).errCb = true) := by
  refine ⟨by decide, ?_, ?_⟩
  · intro s op h
    cases op with
    | tick r => rw [step_tick]; exact h
    | onMessage => rfl
    | onError => exact h
    | sendMessage r => exact h
    | getAgent r => exact h
    | listAgents r => exact h
    | startOp r => exact h
  · intro s op h
    cases op with
    | tick r => rw [step_tick]; exact h
    | onMessage => exact h
    | onError => rfl
    | sendMessage r => exact h
    | getAgent r => exact h
    | listAgents r => exact h
    | startOp r => exact h

/-- Witness for C6 (amended): after a poll tick, a registered message
callback is still registered. -/
theorem C6_witness :
    "stop" ∉ publicSurface ∧
    ((step ⟨0, true, true⟩ (SDKOp.tick (.fail "down"))).1).msgCb = true :=
  ⟨C6_no_stop_operation.1,
   C6_no_stop_operation.2.1 ⟨0, true, true⟩ (SDKOp.tick (.fail "down")) rfl⟩

/-! ## Claim C7 -/

/-- C7: errors inside the polling loop are reported only through the error
callback and never terminate the loop: a body that fails JSON parsing
dispatches exactly `SerializationError`, drops the payload (no message
dispatched, state unchanged) and the run continues with the remaining
operations; with no error callback registered a tick dispatches no errors
at all (silent absorption); and every tick, whatever its outcome, hands
control to the next operation of the run (the loop body has no terminating
path). -/
theorem C7_loop_errors_via_callback_only :
    (∀ (s : SDKState) (resp : HttpResponse) (t e : String)
        (ops : List SDKOp),
      s.errCb = true → statusIsSuccess resp.status = true →
      resp.text = .ok t → resp.parse = .error e →
        (step s (.tick (.resp resp))).2.2 = [.SerializationError e] ∧
        (step s (.tick (.resp resp))).2.1 = [] ∧
        (step s (.tick (.resp resp))).1 = s ∧
        run s (SDKOp.tick (.resp resp) :: ops) = run s ops) ∧
    (∀ (s : SDKState) (r : FetchOutcome),
      s.errCb = false → (step s (.tick r)).2.2 = []) ∧
    (∀ (s : SDKState) (r : FetchOutcome) (ops : List SDKOp),
      run s (SDKOp.tick r :: ops) = run (step s (.tick r)).1 ops) := by
  refine ⟨?_, ?_, fun s r ops => rfl⟩
  · intro s resp t e ops hec hst ht hp
    rcases s with ⟨c, mc, ec⟩
    simp only at hec
    subst hec
    have he := pollTick_parseErr c mc true resp t e hst ht hp
    have hs : step ⟨c, mc, true⟩ (.tick (.resp resp)) =
        (⟨c, mc, true⟩, [], [.SerializationError e]) := by
      rw [step_tick]
      simp only [he]
      simp
    refine ⟨by rw [hs], by rw [hs], by rw [hs], ?_⟩
    show run (step ⟨c, mc, true⟩ (.tick (.resp resp))).1 ops =
      run ⟨c, mc, true⟩ ops
    rw [hs]
  · intro s r hec
    rcases s with ⟨c, mc, ec⟩
    simp only at hec
    subst hec
    rw [step_tick]
    exact pollTick_noErrCb c mc r

/-- Witness for C7: a non-JSON body dispatches one `SerializationError` and
the loop continues; with no error callback the same failure dispatches
nothing. -/
theorem C7_witness :
    (⟨0, true, true⟩ : SDKState).errCb = true ∧
    ((step ⟨0, true, true⟩
        (.tick (.resp ⟨200, .ok "not json", .error "expected value"⟩))).2.2 =
      [.SerializationError "expected value"] ∧
      (step ⟨0, true, true⟩
        (.tick (.resp ⟨200, .ok "not json", .error "expected value"⟩))).2.1 =
        [] ∧
      (step ⟨0, true, true⟩
        (.tick (.resp ⟨200, .ok "not json", .error "expected value"⟩))).1 =
        ⟨0, true, true⟩ ∧
      run ⟨0, true, true⟩
        (SDKOp.tick (.resp ⟨200, .ok "not json", .error "expected value"⟩) ::
          []) = run ⟨0, true, true⟩ []) ∧
    (step ⟨0, true, false⟩ (.tick (.fail "conn refused"))).2.2 = [] :=
  ⟨rfl,
   C7_loop_errors_via_callback_only.1 ⟨0, true, true⟩
     ⟨200, .ok "not json", .error "expected value"⟩ "not json"
     "expected value" [] rfl rfl rfl rfl,
   C7_loop_errors_via_callback_only.2.1 ⟨0, true, false⟩
     (.fail "conn refused") rfl⟩

/-! ## Claim C8 -/

/-- C8 (counterexample): constructing the SDK with an api_key containing a
byte that is illegal in an HTTP header value makes
`api_key.parse().unwrap()` in `OpenPondSDK::new` panic — construction does
not return the error as a result value and does panic for this
configuration value. -/
theorem C8_counterexample :
    new ⟨"https://api.openpond.com", none, none, some "bad\nkey"⟩
      = none := by decide

/-- C8 (amended): construction panics (models as `none`) exactly when the
configured api_key is an illegal HTTP header value, and otherwise returns
the SDK (cursor 0, empty callback slots) directly rather than a result
value; startup (`start`) errors, by contrast, are returned synchronously
as a result value (`Except`). -/
theorem C8_construction_panic_characterised :
    (∀ cfg, new cfg = none ↔
      ∃ k, cfg.api_key = some k ∧ isValidHeaderValue k = false) ∧
    (∀ cfg st, new cfg = some st → st = ⟨0, false, false⟩) ∧
    (∀ r, (∃ e, start r = Except.error e) ∨ start r = .ok true) := by
  refine ⟨?_, new_initial_state, ?_⟩
  · intro cfg
    rcases cfg with ⟨url, pk, an, ak⟩
    cases ak with
    | none => simp [new]
    | some k =>
      by_cases hv : isValidHeaderValue k
      · simp [new, hv]
      · simp [new, hv]
  · intro r
    cases h : register_agent r with
    | error e => exact Or.inl ⟨e, by simp [start, h]⟩
    | ok u => cases u; exact Or.inr (by simp [start, h])

/-- Witness for C8 (amended): a well-formed api_key constructs successfully
with the initial state. -/
theorem C8_witness :
    new ⟨"https://api.openpond.com", none, none, some "good-key"⟩
        = some ⟨0, false, false⟩ ∧
    (⟨0, false, false⟩ : SDKState) = ⟨0, false, false⟩ :=
  ⟨by decide,
   C8_construction_panic_characterised.2.1
     ⟨"https://api.openpond.com", none, none, some "good-key"⟩
     ⟨0, false, false⟩ (by decide)⟩

/-! ## Claim C9 -/

/-- C9: `send_message`, `get_agent` and `list_agents` all surface a
non-success HTTP status as `ApiError` carrying the numeric status and the
response body text, and surface a transport-level failure (connection
refused, timeout, DNS) as the transport error kind `HttpError` — an error
result, never `Ok`, and a kind distinct from `ApiError`. -/
theorem C9_request_error_surfacing :
    (∀ (resp : HttpResponse) (t : String),
      statusIsSuccess resp.status = false → resp.text = .ok t →
        send_message (.resp resp) = .error (.ApiError resp.status t) ∧
        get_agent (.resp resp) = .error (.ApiError resp.status t) ∧
        list_agents (.resp resp) = .error (.ApiError resp.status t)) ∧
    (∀ e : String,
      send_message (.fail e) = .error (.HttpError e) ∧
      get_agent (.fail e) = .error (.HttpError e) ∧
      list_agents (.fail e) = .error (.HttpError e)) ∧
    (∀ (e : String) (st : Nat) (m : String),
      (OpenPondError.HttpError e) ≠ .ApiError st m) := by
  refine ⟨?_, fun e => ⟨rfl, rfl, rfl⟩, ?_⟩
  · intro resp t hst ht
    exact ⟨by simp [send_message, hst, ht], by simp [get_agent, hst, ht],
      by simp [list_agents, hst, ht]⟩
  · intro e st m h
    cases h

/-- Witness for C9: a 503 response yields the ApiError on all three calls;
a refused connection yields the transport error kind. -/
theorem C9_witness :
    statusIsSuccess 503 = false ∧
    (send_message (.resp ⟨503, .ok "unavailable", .error "x"⟩) =
        .error (.ApiError 503 "unavailable") ∧
      get_agent (.resp ⟨503, .ok "unavailable", .error "x"⟩) =
        .error (.ApiError 503 "unavailable") ∧
      list_agents (.resp ⟨503, .ok "unavailable", .error "x"⟩) =
        .error (.ApiError 503 "unavailable")) ∧
    send_message (.fail "connection refused") =
      .error (.HttpError "connection refused") :=
  ⟨by decide,
   C9_request_error_surfacing.1 ⟨503, .ok "unavailable", .error "x"⟩
     "unavailable" (by decide) rfl,
   (C9_request_error_surfacing.2.1 "connection refused").1⟩

/-! ## Claim C10 -/

/-- C10: on a success (2xx) response whose body parses as JSON but whose
`messageId` field is missing or not a string, `send_message` returns
`Ok("")` — it never fails on such a response. -/
theorem C10_missing_messageId_yields_empty_ok
    (resp : HttpResponse) (t : String) (data : Json)
    (hst : statusIsSuccess resp.status = true)
    (ht : resp.text = .ok t) (hp : resp.parse = .ok data)
    (hm : (data.index "messageId").as_str = none) :
    send_message (.resp resp) = .ok "" := by
  simp [send_message, responseJson, hst, ht, hp, hm]

/-- Witness for C10: a 200 response with body `{}` yields `Ok("")`. -/
theorem C10_witness :
    ((Json.obj []).index "messageId").as_str = none ∧
    send_message (.resp ⟨200, .ok "\x7b\x7d", .ok (.obj [])⟩) = .ok "" :=
  ⟨rfl,
   C10_missing_messageId_yields_empty_ok
     ⟨200, .ok "\x7b\x7d", .ok (.obj [])⟩ "\x7b\x7d" (.obj [])
     rfl rfl rfl rfl⟩

end OpenPond
